import Mathlib

/-!
Verification development for the `homebrainz` device-telemetry coordinator
(`custom_components/homebrainz/__init__.py` and `switch.py`).

The data values of the coordinator are decoded JSON, so we embed them as a small
JSON-like `Value` type.  Python dictionaries are embedded as insertion-ordered
association lists (`Dict`), with operations mirroring Python semantics:
`get` with a default, item assignment (position-preserving update, append on
new key), `setdefault`, and `dict.update`.
-/

set_option autoImplicit false

namespace HomeBrainz

/-- A decoded JSON value, as handled by the Python code.  Numbers are embedded
as integers (the coordinator never does arithmetic on payload numbers, so this
loses nothing the claims depend on). -/
inductive Value where
  | null
  | bool (b : Bool)
  | num (n : Int)
  | str (s : String)
  | list (xs : List Value)
  | dict (entries : List (String × Value))

/-- A Python dictionary with string keys: an insertion-ordered association
list. -/
abbrev Dict := List (String × Value)

/-- Python truthiness (`bool(v)`): `None`, `False`, `0`, `""`, `[]`, `{}` are
falsy. -/
def Value.isTruthy : Value → Bool
  | .null => false
  | .bool b => b
  | .num n => n != 0
  | .str s => s ≠ ""
  | .list xs => !xs.isEmpty
  | .dict d => !d.isEmpty

/-- Python `d.get(k)` without a default: `some v` when present, `none` when absent. -/
def Dict.get? (d : Dict) (k : String) : Option Value :=
  match d with
  | [] => none
  | (k₀, v) :: rest => if k₀ = k then some v else Dict.get? rest k

/-- Python `d.get(k, default)`. -/
def Dict.getD (d : Dict) (k : String) (v₀ : Value) : Value :=
  (Dict.get? d k).getD v₀

/-- Python `d.get(k)` as Python evaluates it: absent keys yield `None` (`Value.null`).
-/
def Dict.getPy (d : Dict) (k : String) : Value :=
  (Dict.get? d k).getD .null

/-- Python `d[k] = v`: position-preserving overwrite of an existing key, append when
the key is new (CPython insertion-order semantics). -/
def Dict.insert (d : Dict) (k : String) (v : Value) : Dict :=
  match d with
  | [] => [(k, v)]
  | (k₀, v₀) :: rest => if k₀ = k then (k₀, v) :: rest else (k₀, v₀) :: Dict.insert rest k v

/-- Python `d.setdefault(k, v)`: insert only when the key is absent. -/
def Dict.setdefault (d : Dict) (k : String) (v : Value) : Dict :=
  match Dict.get? d k with
  | some _ => d
  | none => Dict.insert d k v

/-- Python `d.update(patch)`: assign every key of `patch` into `d`, in patch order. -/
def Dict.update (d patch : Dict) : Dict :=
  patch.foldl (fun acc kv => Dict.insert acc kv.1 kv.2) d

/-- The key list of a dictionary, in insertion order. -/
def Dict.keys (d : Dict) : List String :=
  d.map Prod.fst

/-- Python `k in d`. -/
def Dict.contains (d : Dict) (k : String) : Bool :=
  (Dict.get? d k).isSome

/-- Item assignment `v[k] = x` on an arbitrary value: succeeds only on a
dictionary, `none` models the `TypeError` raised otherwise. -/
def Value.setItem : Value → String → Value → Option Value
  | .dict d, k, x => some (.dict (Dict.insert d k x))
  | _, _, _ => none

/-- Method call `v.update(patch)` on an arbitrary value: succeeds only on a
dictionary, `none` models the `AttributeError` raised otherwise. -/
def Value.updateWith : Value → Dict → Option Value
  | .dict d, patch => some (.dict (Dict.update d patch))
  | _, _ => none

/-- Python `sensor_data if isinstance(sensor_data, dict) else {}`. -/
def coerceDict (v : Value) : Value :=
  match v with
  | .dict d => .dict d
  | _ => .dict []

/-! ## Message dispatcher (`_handle_websocket_message`) -/

/-- The default snapshot `{"sensors": {}, "status": {}, "screens": []}`
substituted whenever `self.data` is falsy. -/
def defaultSnapshot : Dict :=
  [("sensors", .dict []), ("status", .dict []), ("screens", .list [])]

/-- The binding `existing = self.data or {"sensors": {}, "status": {}, "screens": []}`:
the stored snapshot, with the default substituted when it is `None` or the
empty (falsy) dictionary. -/
def existingData (selfData : Option Dict) : Dict :=
  match selfData with
  | some d => if d.isEmpty then defaultSnapshot else d
  | none => defaultSnapshot

/-- The expression `data.get("data", {}) or {}` followed by the `isinstance(..., dict)`
coercion: a dictionary payload is kept as-is, anything else becomes `{}`. -/
def payloadDict (data : Dict) : Dict :=
  match Dict.get? data "data" with
  | some (.dict d) => d
  | _ => []

/-- Result of one `_handle_websocket_message` call: the snapshot published via
`async_set_updated_data` (if any) and the frames handed to
`_send_websocket_command`, in order.  `err` models an exception escaping the
handler (it is caught and logged by the receive loop; nothing is published). -/
inductive HandlerResult where
  | ok (published : Option Dict) (sent : List Dict)
  | err

/-- The `sensors_available` folding in the `sensor_update` branch: when the
message carries a non-`None` `sensors_available` flag, fold it into the
payload with `setdefault`. -/
def foldAvailability (data : Dict) (raw : Dict) : Dict :=
  match Dict.getPy data "sensors_available" with
  | .null => raw
  | avail => Dict.setdefault raw "sensors_available" avail

/-- The `last_status_update` stamping in the `status_update` branch: when the
message carries a non-`None` timestamp, `setdefault` it into the payload. -/
def stampStatusPayload (data : Dict) (payload : Dict) : Dict :=
  match Dict.getPy data "timestamp" with
  | .null => payload
  | ts => Dict.setdefault payload "last_status_update" ts

/-- The `last_sensor_update` stamping in the `sensor_update` branch: when the
message carries a non-`None` timestamp, assign it into the carried-over status
value (`none` models the `TypeError` raised when that value is not a
dictionary). -/
def stampSensorStatus (data : Dict) (status : Value) : Option Value :=
  match Dict.getPy data "timestamp" with
  | .null => some status
  | ts => Value.setItem status "last_sensor_update" ts

/-- The `message_type == "sensor_update"` branch. -/
def handleSensorUpdate (selfData : Option Dict) (data : Dict) : HandlerResult :=
  let rawSensorData := foldAvailability data (payloadDict data)
  let existing := existingData selfData
  let currentStatus := Dict.getD existing "status" (.dict [])
  let screensSnapshot := Dict.getD existing "screens" (.list [])
  match stampSensorStatus data currentStatus with
  | some stamped =>
      .ok (some [("sensors", .dict rawSensorData), ("status", stamped),
                 ("screens", screensSnapshot)]) []
  | none => .err

/-- The `message_type == "status_update"` branch. -/
def handleStatusUpdate (selfData : Option Dict) (data : Dict) : HandlerResult :=
  let statusPayload := stampStatusPayload data (payloadDict data)
  let existing := existingData selfData
  let sensorsSnapshot := Dict.getD existing "sensors" (.dict [])
  let screensSnapshot := Dict.getD existing "screens" (.list [])
  let sent : List Dict :=
    if sensorsSnapshot.isTruthy then []
    else [[("command", Value.str "get_sensors")]]
  .ok (some [("sensors", sensorsSnapshot), ("status", .dict statusPayload),
             ("screens", screensSnapshot)]) sent

/-- The pong frame `{"type": "pong", "timestamp": t}`. -/
def pongFrame (ts : Value) : Dict :=
  [("type", .str "pong"), ("timestamp", ts)]

/-- The `message_type == "ping"` branch. -/
def handlePing (data : Dict) : HandlerResult :=
  .ok none [pongFrame (Dict.getPy data "timestamp")]

/-- The `elif data.get("command"):` branch (reply to a command we sent). -/
def handleCommandReply (selfData : Option Dict) (data : Dict) : HandlerResult :=
  let success := Dict.getD data "success" (.bool false)
  if success.isTruthy then
    match Dict.getPy data "command" with
    | .str "get_sensors" =>
        let sensorData := payloadDict data
        let existing := existingData selfData
        .ok (some [("sensors", .dict sensorData),
                   ("status", Dict.getD existing "status" (.dict [])),
                   ("screens", Dict.getD existing "screens" (.list []))]) []
    | .str "get_status" =>
        let statusData := payloadDict data
        let existing := existingData selfData
        .ok (some [("sensors", Dict.getD existing "sensors" (.dict [])),
                   ("status", .dict statusData),
                   ("screens", Dict.getD existing "screens" (.list []))]) []
    | _ =>
        let responseData := payloadDict data
        if responseData.isEmpty then .ok none []
        else
          let existing := existingData selfData
          match Value.updateWith (Dict.getD existing "status" (.dict [])) responseData with
          | some merged =>
              .ok (some [("sensors", Dict.getD existing "sensors" (.dict [])),
                         ("status", merged),
                         ("screens", Dict.getD existing "screens" (.list []))]) []
          | none => .err
  else .ok none []

/-- Embedding of `_handle_websocket_message(self, data)`: dispatch on the discriminator,
given the current `self.data` of the coordinator. -/
def handleWebsocketMessage (selfData : Option Dict) (data : Dict) : HandlerResult :=
  match Dict.getPy data "type" with
  | .str "sensor_update" => handleSensorUpdate selfData data
  | .str "status_update" => handleStatusUpdate selfData data
  | .str "ping" => handlePing data
  | _ =>
      if (Dict.getPy data "command").isTruthy then handleCommandReply selfData data
      else .ok none []

/-! ## Outbound command path (`_send_websocket_command`, `send_device_command`) -/

/-- The value of `getattr(websocket, "closed", False)` together with how it
behaves when the code probes it: a plain attribute value, a callable that
returns a value, a callable that raises, or a missing attribute. -/
inductive ClosedAttr where
  | missing
  | attr (v : Value)
  | callableReturns (v : Value)
  | callableRaises

/-- How `websocket.send(...)` behaves if it is reached: success, one of the
caught transport exceptions (`WebSocketException`, `ConnectionClosedError`,
`OSError`), or any other exception. -/
inductive SendResult where
  | ok
  | transportErr
  | otherErr
deriving DecidableEq, Repr

/-- The observable behaviour of the websocket object held in
`self._websocket`. -/
structure Transport where
  closedAttr : ClosedAttr
  sendResult : SendResult

/-- The coordinator state touched by the command path: `self._websocket`,
`self._websocket_connected`, and the stored snapshot `self.data`. -/
structure CoordState where
  websocket : Option Transport
  websocketConnected : Bool
  data : Option Dict

/-- Evaluation of the `is_closed` probe in `_send_websocket_command`: the
`getattr` default is `False`; a callable result is called, and an exception
from the call is swallowed, leaving `is_closed = False`. -/
def evalClosed : ClosedAttr → Bool
  | .missing => false
  | .attr v => v.isTruthy
  | .callableReturns v => v.isTruthy
  | .callableRaises => false

/-- Outcome of one `_send_websocket_command` call: whether a transport write
was attempted, whether an exception escaped the call, whether a warning was
logged, and the coordinator state afterwards. -/
structure SendOutcome where
  wrote : Bool
  raised : Bool
  warned : Bool
  after : CoordState

/-- Embedding of `_send_websocket_command(self, command)`.  The frame content does not
influence control flow, so it is not a parameter. -/
def sendWebsocketCommand (st : CoordState) : SendOutcome :=
  match st.websocket with
  | none => ⟨false, false, false, st⟩
  | some t =>
    if evalClosed t.closedAttr then ⟨false, false, false, st⟩
    else
      match t.sendResult with
      | .ok => ⟨true, false, false, st⟩
      | .transportErr =>
          ⟨true, false, true,
           { st with websocketConnected := false, websocket := none }⟩
      | .otherErr => ⟨true, false, false, st⟩

/-- Embedding of `send_device_command(self, command, **kwargs)`: the returned boolean and
the `_send_websocket_command` outcome (a no-write outcome when the guard
short-circuits). -/
def sendDeviceCommand (st : CoordState) : Bool × SendOutcome :=
  if st.websocketConnected then (true, sendWebsocketCommand st)
  else (false, ⟨false, false, false, st⟩)

/-! ## Connection retry loop (`_websocket_handler`) -/

/-- The constant `WEBSOCKET_RETRY_DELAY = 10` (seconds). -/
def WEBSOCKET_RETRY_DELAY : Nat := 10

/-- The constant `WEBSOCKET_MAX_RETRIES = 5`. -/
def WEBSOCKET_MAX_RETRIES : Nat := 5

/-- The backoff delay `min(WEBSOCKET_RETRY_DELAY * self._retry_count, 60)`, computed
after `self._retry_count` has been incremented. -/
def backoffDelay (retryCount : Nat) : Nat :=
  min (WEBSOCKET_RETRY_DELAY * retryCount) 60

/-- Outcome of one iteration of the `while True` loop in
`_websocket_handler`: the connect call fails with a transport error; the
connection succeeds (resetting the retry counter), dispatches some number of
frames, and then fails or closes cleanly; the task is cancelled; or an
unexpected exception occurs. -/
inductive IterOutcome where
  | connectFailed
  | connectedThenFailed (dispatched : Nat)
  | connectedCleanClose (dispatched : Nat)
  | cancelled
  | unexpectedError

/-- Observable events of the retry loop: a connection attempt, a frame handed
to the dispatcher, a backoff sleep, the give-up exit, and the cancellation
exit. -/
inductive WsEvent where
  | attempt
  | dispatch
  | sleep (d : Nat)
  | gaveUp
  | stopped
deriving DecidableEq, Repr

/-- Embedding of `_websocket_handler(self)`, as the trace of events produced from a given
retry count and a list of per-iteration outcomes (the loop body runs once per
list element; an empty remainder means the loop is still awaiting I/O). -/
def websocketHandler (retryCount : Nat) : List IterOutcome → List WsEvent
  | [] => []
  | o :: rest =>
    match o with
    | .connectFailed =>
        let rc := retryCount + 1
        if rc ≤ WEBSOCKET_MAX_RETRIES then
          .attempt :: .sleep (backoffDelay rc) :: websocketHandler rc rest
        else [.attempt, .gaveUp]
    | .connectedThenFailed n =>
        let rc := 0 + 1
        if rc ≤ WEBSOCKET_MAX_RETRIES then
          .attempt :: (List.replicate n .dispatch ++
            (.sleep (backoffDelay rc) :: websocketHandler rc rest))
        else .attempt :: (List.replicate n .dispatch ++ [.gaveUp])
    | .connectedCleanClose n =>
        .attempt :: (List.replicate n .dispatch ++ websocketHandler 0 rest)
    | .cancelled => [.attempt, .stopped]
    | .unexpectedError =>
        .attempt :: .sleep WEBSOCKET_RETRY_DELAY :: websocketHandler retryCount rest

/-- Whether a `gaveUp` event, when present, is the last event of a trace. -/
def gaveUpTerminal : List WsEvent → Bool
  | [] => true
  | .gaveUp :: rest => rest.isEmpty
  | _ :: rest => gaveUpTerminal rest

/-! ## Fallback poller (`_async_update_data`) -/

/-- Outcome of one HTTP fetch: a response with a status code and decoded JSON
body, an `aiohttp.ClientError`, or an `asyncio.TimeoutError`. -/
inductive FetchResult where
  | resp (code : Nat) (body : Value)
  | clientError
  | timeout

/-- Whether a fetch came back as a 200 response; everything else (non-200
status, transport error, timeout) counts as a failed call. -/
def FetchResult.isOk200 : FetchResult → Bool
  | .resp code _ => code == 200
  | _ => false

/-- The binding `existing = self.data or {"screens": []}` in `_async_update_data`. -/
def pollExisting (selfData : Option Dict) : Dict :=
  match selfData with
  | some d => if d.isEmpty then [("screens", Value.list [])] else d
  | none => [("screens", Value.list [])]

/-- The `screens` value of the snapshot returned by `_async_update_data`:
the best-effort fetch result when it is a 200 response whose body is a
dictionary holding a `screens` list, otherwise the previously stored value
(default `[]`). -/
def screensFromFetch (selfData : Option Dict) (screensFetch : FetchResult) :
    Value :=
  let screensData : Option Value :=
    match screensFetch with
    | .resp code b => if code = 200 then some b else none
    | _ => none
  match screensData with
  | some (.dict sd) =>
      match Dict.get? sd "screens" with
      | some (.list xs) => Value.list xs
      | _ => Dict.getD (pollExisting selfData) "screens" (.list [])
  | _ => Dict.getD (pollExisting selfData) "screens" (.list [])

/-- Embedding of `_async_update_data(self)`, with the three HTTP fetches supplied as
oracles.  `.error` models raising `UpdateFailed` (the framework then keeps the
previous snapshot); `.ok` is the returned snapshot. -/
def asyncUpdateData (selfData : Option Dict)
    (sensorsFetch statusFetch screensFetch : FetchResult) :
    Except String Dict :=
  match sensorsFetch with
  | .clientError => .error "Error communicating with API"
  | .timeout => .error "Timeout communicating with API"
  | .resp code body =>
    if code = 200 then
      match statusFetch with
      | .clientError => .error "Error communicating with API"
      | .timeout => .error "Timeout communicating with API"
      | .resp code₂ body₂ =>
        if code₂ = 200 then
          .ok [("sensors", coerceDict body), ("status", coerceDict body₂),
               ("screens", screensFromFetch selfData screensFetch)]
        else .error "Error communicating with device"
    else .error "Error communicating with device"

/-! ## Screen-rotation switch (`switch.py`, `HomeBrainzScreenSwitch`) -/

/-- The fixed canonical screen ordering `DEFAULT_SCREEN_ORDER`. -/
def DEFAULT_SCREEN_ORDER : List String :=
  ["clock", "temp", "humidity", "pressure", "gas", "iaq"]

/-- Embedding of `_get_enabled_screens(self)`: the stored `screens` list filtered to
strings; `[]` when there is no data or the entry is not a list. -/
def getEnabledScreens (data : Option Dict) : List String :=
  match data with
  | none => []
  | some d =>
    if d.isEmpty then []
    else
      match Dict.getD d "screens" (.list []) with
      | .list xs => xs.filterMap (fun v => match v with | .str s => some s | _ => none)
      | _ => []

/-- The `new_screens` list computed by `_set_enabled`: the enabled set with
the target screen added or discarded, re-derived against
`DEFAULT_SCREEN_ORDER` (set semantics: only membership matters). -/
def newScreensFor (data : Option Dict) (screenId : String) (enabled : Bool) :
    List String :=
  let current := getEnabledScreens data
  let updated :=
    if enabled then (if screenId ∈ current then current else screenId :: current)
    else current.filter (fun s => s ≠ screenId)
  DEFAULT_SCREEN_ORDER.filter (fun s => s ∈ updated)

/-- Outcome of the HTTP POST to `/display/screens`. -/
inductive PostResult where
  | status (code : Nat)
  | clientError
  | timeout
deriving DecidableEq, Repr

/-- Outcome of one `_set_enabled` call: the body posted to the device (`none`
when no request was sent) and the snapshot passed to
`async_set_updated_data` (`none` when the coordinator data is unchanged). -/
structure SetEnabledOutcome where
  requested : Option (List String)
  newData : Option Dict

/-- Embedding of `HomeBrainzScreenSwitch._set_enabled(self, enabled)`, with the POST
outcome supplied as an oracle. -/
def setEnabled (data : Option Dict) (screenId : String) (enabled : Bool)
    (post : PostResult) : SetEnabledOutcome :=
  let newScreens := newScreensFor data screenId enabled
  if newScreens.isEmpty then ⟨none, none⟩
  else if newScreens = getEnabledScreens data then ⟨none, none⟩
  else
    match post with
    | .status 200 =>
        let existing := existingData data
        ⟨some newScreens,
         some (Dict.insert existing "screens" (.list (newScreens.map .str)))⟩
    | .status _ => ⟨some newScreens, none⟩
    | .clientError => ⟨some newScreens, none⟩
    | .timeout => ⟨some newScreens, none⟩

/-! ## Dictionary lemmas -/

theorem Dict.get?_insert_self (d : Dict) (k : String) (v : Value) :
    Dict.get? (Dict.insert d k v) k = some v := by
  induction d with
  | nil => simp [Dict.insert, Dict.get?]
  | cons kv rest ih =>
      obtain ⟨k₀, v₀⟩ := kv
      by_cases h : k₀ = k <;> simp [Dict.insert, Dict.get?, h, ih]

theorem Dict.get?_insert_ne (d : Dict) (k₀ k : String) (v : Value) (h : k ≠ k₀) :
    Dict.get? (Dict.insert d k₀ v) k = Dict.get? d k := by
  induction d with
  | nil =>
      simp only [Dict.insert, Dict.get?]
      rw [if_neg (fun e => h e.symm)]
  | cons kv rest ih =>
      obtain ⟨k₁, v₁⟩ := kv
      by_cases h₁ : k₁ = k₀ <;> by_cases h₂ : k₁ = k <;>
        simp_all [Dict.insert, Dict.get?]

theorem Dict.contains_insert (d : Dict) (k₀ k : String) (v : Value)
    (h : Dict.contains (Dict.insert d k₀ v) k = true) :
    Dict.contains d k = true ∨ k = k₀ := by
  by_cases hk : k = k₀
  · exact Or.inr hk
  · refine Or.inl ?_
    unfold Dict.contains at h ⊢
    rwa [Dict.get?_insert_ne d k₀ k v hk] at h

theorem Dict.contains_setdefault (d : Dict) (k₀ k : String) (v : Value)
    (h : Dict.contains (Dict.setdefault d k₀ v) k = true) :
    Dict.contains d k = true ∨ k = k₀ := by
  unfold Dict.setdefault at h
  split at h
  · exact Or.inl h
  · exact Dict.contains_insert d k₀ k v h

theorem Dict.contains_iff_mem_keys (d : Dict) (k : String) :
    Dict.contains d k = true ↔ k ∈ Dict.keys d := by
  induction d with
  | nil => simp [Dict.contains, Dict.get?, Dict.keys]
  | cons kv rest ih =>
      obtain ⟨k₀, v₀⟩ := kv
      by_cases h : k₀ = k
      · subst h
        simp [Dict.contains, Dict.get?, Dict.keys]
      · have hstep : Dict.contains ((k₀, v₀) :: rest) k = Dict.contains rest k := by
          simp [Dict.contains, Dict.get?, h]
        rw [hstep, ih]
        constructor
        · intro hm
          exact List.mem_cons_of_mem k₀ hm
        · intro hm
          rcases List.mem_cons.mp hm with e | hm
          · exact absurd e.symm h
          · exact hm

/-- Keys of the folded sensor payload come from the raw payload or are the
folded-in `sensors_available` flag. -/
theorem contains_foldAvailability (data raw : Dict) (k : String)
    (h : Dict.contains (foldAvailability data raw) k = true) :
    Dict.contains raw k = true ∨ k = "sensors_available" := by
  unfold foldAvailability at h
  split at h
  · exact Or.inl h
  · exact Dict.contains_setdefault raw "sensors_available" k _ h

/-- Keys of the stamped status payload come from the raw payload or are the
stamped `last_status_update` timestamp. -/
theorem contains_stampStatusPayload (data payload : Dict) (k : String)
    (h : Dict.contains (stampStatusPayload data payload) k = true) :
    Dict.contains payload k = true ∨ k = "last_status_update" := by
  unfold stampStatusPayload at h
  split at h
  · exact Or.inl h
  · exact Dict.contains_setdefault payload "last_status_update" k _ h

/-! ## Shape of every published snapshot -/

theorem keys_handleSensorUpdate (sd : Option Dict) (data : Dict) (snap : Dict)
    (sent : List Dict)
    (h : handleSensorUpdate sd data = .ok (some snap) sent) :
    Dict.keys snap = ["sensors", "status", "screens"] := by
  simp only [handleSensorUpdate] at h
  split at h
  · injection h with h₁ h₂
    injection h₁ with h₁
    subst h₁
    rfl
  · exact HandlerResult.noConfusion h

theorem keys_handleStatusUpdate (sd : Option Dict) (data : Dict) (snap : Dict)
    (sent : List Dict)
    (h : handleStatusUpdate sd data = .ok (some snap) sent) :
    Dict.keys snap = ["sensors", "status", "screens"] := by
  simp only [handleStatusUpdate] at h
  injection h with h₁ h₂
  injection h₁ with h₁
  subst h₁
  rfl

theorem keys_handleCommandReply (sd : Option Dict) (data : Dict) (snap : Dict)
    (sent : List Dict)
    (h : handleCommandReply sd data = .ok (some snap) sent) :
    Dict.keys snap = ["sensors", "status", "screens"] := by
  simp only [handleCommandReply] at h
  split at h
  · split at h
    · injection h with h₁ h₂
      injection h₁ with h₁
      subst h₁
      rfl
    · injection h with h₁ h₂
      injection h₁ with h₁
      subst h₁
      rfl
    · split at h
      · injection h with h₁ h₂
        exact Option.noConfusion h₁
      · split at h
        · injection h with h₁ h₂
          injection h₁ with h₁
          subst h₁
          rfl
        · exact HandlerResult.noConfusion h
  · injection h with h₁ h₂
    exact Option.noConfusion h₁

theorem keys_handleWebsocketMessage (sd : Option Dict) (data : Dict)
    (snap : Dict) (sent : List Dict)
    (h : handleWebsocketMessage sd data = .ok (some snap) sent) :
    Dict.keys snap = ["sensors", "status", "screens"] := by
  simp only [handleWebsocketMessage] at h
  split at h
  · exact keys_handleSensorUpdate _ _ _ _ h
  · exact keys_handleStatusUpdate _ _ _ _ h
  · simp only [handlePing] at h
    injection h with h₁ h₂
    exact Option.noConfusion h₁
  · split at h
    · exact keys_handleCommandReply _ _ _ _ h
    · injection h with h₁ h₂
      exact Option.noConfusion h₁

theorem keys_asyncUpdateData (sd : Option Dict)
    (sf stf scf : FetchResult) (snap : Dict)
    (h : asyncUpdateData sd sf stf scf = .ok snap) :
    Dict.keys snap = ["sensors", "status", "screens"] := by
  unfold asyncUpdateData at h
  split at h
  · exact Except.noConfusion h
  · exact Except.noConfusion h
  · split at h
    · split at h
      · exact Except.noConfusion h
      · exact Except.noConfusion h
      · split at h
        · injection h with h₁
          subst h₁
          rfl
        · exact Except.noConfusion h
    · exact Except.noConfusion h

/-! ## Dispatch lemmas -/

theorem dispatch_sensor_update (sd : Option Dict) (data : Dict)
    (h : Dict.getPy data "type" = .str "sensor_update") :
    handleWebsocketMessage sd data = handleSensorUpdate sd data := by
  unfold handleWebsocketMessage
  rw [h]
  rfl

theorem dispatch_status_update (sd : Option Dict) (data : Dict)
    (h : Dict.getPy data "type" = .str "status_update") :
    handleWebsocketMessage sd data = handleStatusUpdate sd data := by
  unfold handleWebsocketMessage
  rw [h]
  rfl

theorem dispatch_ping (sd : Option Dict) (data : Dict)
    (h : Dict.getPy data "type" = .str "ping") :
    handleWebsocketMessage sd data = handlePing data := by
  unfold handleWebsocketMessage
  rw [h]
  rfl

/-! ## Section survival under a push merge -/

theorem stampSensorStatus_preserves (data : Dict) (st : Dict) (stamped : Value)
    (h : stampSensorStatus data (.dict st) = some stamped) (k : String)
    (v : Value) (hk : k ≠ "last_sensor_update")
    (hget : Dict.get? st k = some v) :
    ∃ st₂, stamped = .dict st₂ ∧ Dict.get? st₂ k = some v := by
  unfold stampSensorStatus at h
  split at h
  · injection h with h
    exact ⟨st, h.symm, hget⟩
  · simp only [Value.setItem] at h
    injection h with h
    refine ⟨Dict.insert st "last_sensor_update" _, h.symm, ?_⟩
    rw [Dict.get?_insert_ne st "last_sensor_update" k _ hk]
    exact hget

theorem sensorUpdate_sections (sd : Option Dict) (data : Dict) (snap : Dict)
    (sent : List Dict)
    (h : handleSensorUpdate sd data = .ok (some snap) sent) :
    Dict.get? snap "screens"
        = some (Dict.getD (existingData sd) "screens" (.list [])) ∧
    (∀ st k v, Dict.getD (existingData sd) "status" (.dict []) = .dict st →
        k ≠ "last_sensor_update" → Dict.get? st k = some v →
        ∃ st₂, Dict.get? snap "status" = some (.dict st₂) ∧
          Dict.get? st₂ k = some v) ∧
    (∃ raw, Dict.get? snap "sensors" = some (.dict raw) ∧
        ∀ k, Dict.contains raw k = true →
          Dict.contains (payloadDict data) k = true ∨ k = "sensors_available") := by
  simp only [handleSensorUpdate] at h
  split at h
  · rename_i stamped hset
    injection h with h₁ h₂
    injection h₁ with h₁
    subst h₁
    refine ⟨rfl, ?_, ?_⟩
    · intro st k v hst hk hget
      rw [hst] at hset
      obtain ⟨st₂, hst₂, hget₂⟩ :=
        stampSensorStatus_preserves data st stamped hset k v hk hget
      refine ⟨st₂, ?_, hget₂⟩
      show some stamped = some (Value.dict st₂)
      rw [hst₂]
    · exact ⟨foldAvailability data (payloadDict data), rfl,
        fun k hc => contains_foldAvailability data (payloadDict data) k hc⟩
  · exact HandlerResult.noConfusion h

theorem statusUpdate_sections (sd : Option Dict) (data : Dict) (snap : Dict)
    (sent : List Dict)
    (h : handleStatusUpdate sd data = .ok (some snap) sent) :
    Dict.get? snap "sensors"
        = some (Dict.getD (existingData sd) "sensors" (.dict [])) ∧
    Dict.get? snap "screens"
        = some (Dict.getD (existingData sd) "screens" (.list [])) ∧
    (∃ sp, Dict.get? snap "status" = some (.dict sp) ∧
        ∀ k, Dict.contains sp k = true →
          Dict.contains (payloadDict data) k = true ∨ k = "last_status_update") := by
  simp only [handleStatusUpdate] at h
  injection h with h₁ h₂
  injection h₁ with h₁
  subst h₁
  exact ⟨rfl, rfl, stampStatusPayload data (payloadDict data), rfl,
    fun k hc => contains_stampStatusPayload data (payloadDict data) k hc⟩

/-! ## The give-up exit is terminal -/

theorem gaveUpTerminal_cons (e : WsEvent) (l : List WsEvent)
    (he : e ≠ .gaveUp) :
    gaveUpTerminal (e :: l) = gaveUpTerminal l := by
  cases e
  · rfl
  · rfl
  · rfl
  · exact absurd rfl he
  · rfl

theorem gaveUpTerminal_replicate_dispatch (n : Nat) (l : List WsEvent) :
    gaveUpTerminal (List.replicate n .dispatch ++ l) = gaveUpTerminal l := by
  induction n with
  | zero => rfl
  | succ n ih =>
      rw [List.replicate_succ, List.cons_append,
        gaveUpTerminal_cons _ _ (by simp)]
      exact ih

theorem websocketHandler_gaveUpTerminal (retryCount : Nat)
    (outcomes : List IterOutcome) :
    gaveUpTerminal (websocketHandler retryCount outcomes) = true := by
  induction outcomes generalizing retryCount with
  | nil => rfl
  | cons o rest ih =>
      cases o with
      | connectFailed =>
          simp only [websocketHandler]
          split
          · rw [gaveUpTerminal_cons _ _ (by simp),
              gaveUpTerminal_cons _ _ (by simp)]
            exact ih _
          · rfl
      | connectedThenFailed n =>
          simp only [websocketHandler]
          split
          · rw [gaveUpTerminal_cons _ _ (by simp),
              gaveUpTerminal_replicate_dispatch,
              gaveUpTerminal_cons _ _ (by simp)]
            exact ih _
          · rw [gaveUpTerminal_cons _ _ (by simp),
              gaveUpTerminal_replicate_dispatch]
            rfl
      | connectedCleanClose n =>
          simp only [websocketHandler]
          rw [gaveUpTerminal_cons _ _ (by simp),
            gaveUpTerminal_replicate_dispatch]
          exact ih _
      | cancelled => rfl
      | unexpectedError =>
          simp only [websocketHandler]
          rw [gaveUpTerminal_cons _ _ (by simp),
            gaveUpTerminal_cons _ _ (by simp)]
          exact ih _

theorem gaveUpTerminal_spec (pre post : List WsEvent)
    (hterm : gaveUpTerminal (pre ++ .gaveUp :: post) = true) :
    post = [] := by
  induction pre with
  | nil => simpa [gaveUpTerminal, List.isEmpty_iff] using hterm
  | cons e pre ih =>
      by_cases he : e = .gaveUp
      · subst he
        exfalso
        have h₂ : (pre ++ WsEvent.gaveUp :: post).isEmpty = true := hterm
        simp at h₂
      · rw [List.cons_append, gaveUpTerminal_cons e _ he] at hterm
        exact ih hterm

/-- A failed best-effort screens fetch leaves the previously stored value. -/
theorem screensFromFetch_of_failure (selfData : Option Dict)
    (scf : FetchResult) (h : FetchResult.isOk200 scf = false) :
    screensFromFetch selfData scf
      = Dict.getD (pollExisting selfData) "screens" (.list []) := by
  unfold screensFromFetch
  cases scf with
  | clientError => rfl
  | timeout => rfl
  | resp code b =>
      have hcode : ¬ code = 200 := by
        intro e
        subst e
        simp [FetchResult.isOk200] at h
      simp only [if_neg hcode]

/-! ## Claims -/

/-- C1, counterexample: a `sensor_update` push does not merge into the
`sensors` section, it replaces it wholesale.  With a prior snapshot whose
`sensors` section holds key `"a"` and a patch naming only `"b"`, the key
`"a"` is present before the merge, is not named by the patch, and is absent
from the published `sensors` section — refuting the claim that keys of the
patched section not named in the patch survive. -/
theorem c1_counterexample :
    handleWebsocketMessage
        (some [("sensors", .dict [("a", .num 1)]),
               ("status", .dict []), ("screens", .list [])])
        [("type", .str "sensor_update"), ("data", .dict [("b", .num 2)])] =
      .ok (some [("sensors", .dict [("b", .num 2)]),
                 ("status", .dict []), ("screens", .list [])]) [] ∧
    Dict.contains [("a", Value.num 1)] "a" = true ∧
    Dict.contains [("b", Value.num 2)] "a" = false :=
  ⟨rfl, rfl, rfl⟩

/-- C1 (amended): on a `sensor_update` or `status_update` push that publishes
a snapshot, all keys in the two sections other than the patched one survive
unchanged (the `status` section additionally gains only the stamped
`last_sensor_update` key), while the patched section is replaced wholesale:
every key of the published patched section comes from the patch itself or is
the folded-in `sensors_available` flag / stamped `last_status_update`
timestamp. -/
theorem c1_push_merge_sections (selfData : Option Dict) (data : Dict)
    (snap : Dict) (sent : List Dict)
    (hmsg : handleWebsocketMessage selfData data = .ok (some snap) sent) :
    (Dict.getPy data "type" = .str "sensor_update" →
      Dict.get? snap "screens"
          = some (Dict.getD (existingData selfData) "screens" (.list [])) ∧
      (∀ st k v,
        Dict.getD (existingData selfData) "status" (.dict []) = .dict st →
        k ≠ "last_sensor_update" → Dict.get? st k = some v →
        ∃ st₂, Dict.get? snap "status" = some (.dict st₂) ∧
          Dict.get? st₂ k = some v) ∧
      (∃ raw, Dict.get? snap "sensors" = some (.dict raw) ∧
        ∀ k, Dict.contains raw k = true →
          Dict.contains (payloadDict data) k = true ∨
            k = "sensors_available")) ∧
    (Dict.getPy data "type" = .str "status_update" →
      Dict.get? snap "sensors"
          = some (Dict.getD (existingData selfData) "sensors" (.dict [])) ∧
      Dict.get? snap "screens"
          = some (Dict.getD (existingData selfData) "screens" (.list [])) ∧
      (∃ sp, Dict.get? snap "status" = some (.dict sp) ∧
        ∀ k, Dict.contains sp k = true →
          Dict.contains (payloadDict data) k = true ∨
            k = "last_status_update")) := by
  constructor
  · intro hty
    rw [dispatch_sensor_update selfData data hty] at hmsg
    exact sensorUpdate_sections selfData data snap sent hmsg
  · intro hty
    rw [dispatch_status_update selfData data hty] at hmsg
    exact statusUpdate_sections selfData data snap sent hmsg

/-- C1 witness: the amended theorem applied to a concrete `sensor_update`
push over a concrete prior snapshot; the untouched `screens` section
survives. -/
theorem c1_witness :
    handleWebsocketMessage
        (some [("sensors", .dict [("a", .num 1)]),
               ("status", .dict [("x", .num 9)]),
               ("screens", .list [.str "clock"])])
        [("type", .str "sensor_update"), ("data", .dict [("b", .num 2)])] =
      .ok (some [("sensors", .dict [("b", .num 2)]),
                 ("status", .dict [("x", .num 9)]),
                 ("screens", .list [.str "clock"])]) [] ∧
    Dict.get? [("sensors", Value.dict [("b", Value.num 2)]),
               ("status", Value.dict [("x", Value.num 9)]),
               ("screens", Value.list [Value.str "clock"])] "screens"
      = some (Value.list [Value.str "clock"]) :=
  ⟨rfl,
   ((c1_push_merge_sections
      (some [("sensors", .dict [("a", .num 1)]),
             ("status", .dict [("x", .num 9)]),
             ("screens", .list [.str "clock"])])
      [("type", .str "sensor_update"), ("data", .dict [("b", .num 2)])]
      [("sensors", .dict [("b", .num 2)]), ("status", .dict [("x", .num 9)]),
       ("screens", .list [.str "clock"])]
      [] rfl).1 rfl).1⟩

/-- C2, counterexample: with the connection reported connected and a
transport that fails the write, `send_device_command` still returns `True`
(the failure is swallowed inside `_send_websocket_command`), refuting the
claim that the call returns failure; the connection is degraded as a side
effect. -/
theorem c2_counterexample :
    (sendDeviceCommand
        ⟨some ⟨.attr (.bool false), .transportErr⟩, true, none⟩).1 = true ∧
    (sendDeviceCommand
        ⟨some ⟨.attr (.bool false), .transportErr⟩, true, none⟩).2.wrote
      = true ∧
    (sendDeviceCommand
        ⟨some ⟨.attr (.bool false), .transportErr⟩, true,
         none⟩).2.after.websocketConnected = false :=
  ⟨rfl, rfl, rfl⟩

/-- C2 (amended): for every call to `send_device_command` while the
connection is reported connected, if the underlying transport write fails,
the connection is degraded to not connected as a side effect, but the call
returns `True` to the caller (the write failure is not reported; only a
subsequent call sees the degraded state); the snapshot is untouched and no
exception escapes. -/
theorem c2_send_failure_degrades (st : CoordState) (t : Transport)
    (hconn : st.websocketConnected = true) (hws : st.websocket = some t)
    (hopen : evalClosed t.closedAttr = false)
    (hfail : t.sendResult = .transportErr) :
    (sendDeviceCommand st).1 = true ∧
    (sendDeviceCommand st).2.wrote = true ∧
    (sendDeviceCommand st).2.after.websocketConnected = false ∧
    (sendDeviceCommand st).2.after.websocket = none ∧
    (sendDeviceCommand st).2.after.data = st.data ∧
    (sendDeviceCommand st).2.raised = false := by
  simp [sendDeviceCommand, sendWebsocketCommand, hconn, hws, hopen, hfail]

/-- C2 witness: the amended theorem applied at a concrete connected state
whose transport write fails. -/
theorem c2_witness :
    (sendDeviceCommand ⟨some ⟨.missing, .transportErr⟩, true, some []⟩).1
      = true ∧
    (sendDeviceCommand
        ⟨some ⟨.missing, .transportErr⟩, true,
         some []⟩).2.after.websocketConnected = false :=
  have h := c2_send_failure_degrades
    ⟨some ⟨.missing, .transportErr⟩, true, some []⟩
    ⟨.missing, .transportErr⟩ rfl rfl rfl rfl
  ⟨h.1, h.2.2.1⟩

/-- C3: a screen toggle whose recomputed list would be empty is rejected
with no request sent and the snapshot unchanged; whenever the coordinator
data is updated, the POST was acknowledged with status 200 and the stored
`screens` list is the (non-empty) recomputed list, so a user-driven toggle
never drives `screens` to empty; and the recomputed list is always a
sublist of the fixed canonical ordering `DEFAULT_SCREEN_ORDER`. -/
theorem c3_screen_toggle_safety (data : Option Dict) (screenId : String)
    (enabled : Bool) (post : PostResult) :
    (newScreensFor data screenId enabled = [] →
        setEnabled data screenId enabled post = ⟨none, none⟩) ∧
    (∀ nd, (setEnabled data screenId enabled post).newData = some nd →
        post = .status 200 ∧
        Dict.get? nd "screens"
          = some (.list ((newScreensFor data screenId enabled).map .str)) ∧
        newScreensFor data screenId enabled ≠ []) ∧
    (newScreensFor data screenId enabled).Sublist DEFAULT_SCREEN_ORDER := by
  refine ⟨?_, ?_, ?_⟩
  · intro hempty
    unfold setEnabled
    rw [hempty]
    rfl
  · intro nd hnd
    simp only [setEnabled] at hnd
    split at hnd
    · exact Option.noConfusion hnd
    · rename_i hempty
      split at hnd
      · exact Option.noConfusion hnd
      · split at hnd
        · injection hnd with hnd
          subst hnd
          refine ⟨rfl, Dict.get?_insert_self _ _ _, ?_⟩
          intro he
          exact hempty (by rw [he]; rfl)
        · exact Option.noConfusion hnd
        · exact Option.noConfusion hnd
        · exact Option.noConfusion hnd
  · simp only [newScreensFor]
    exact List.filter_sublist _

/-- C3 witness: toggling off the last remaining enabled screen at a concrete
snapshot computes an empty list and is rejected outright. -/
theorem c3_witness :
    newScreensFor
        (some [("sensors", Value.dict []), ("status", Value.dict []),
               ("screens", Value.list [Value.str "clock"])]) "clock" false
      = [] ∧
    setEnabled
        (some [("sensors", Value.dict []), ("status", Value.dict []),
               ("screens", Value.list [Value.str "clock"])]) "clock" false
        (.status 200)
      = ⟨none, none⟩ :=
  ⟨rfl,
   (c3_screen_toggle_safety
      (some [("sensors", Value.dict []), ("status", Value.dict []),
             ("screens", Value.list [Value.str "clock"])])
      "clock" false (.status 200)).1 rfl⟩

/-- C4: with the retry counter incremented before the delay is computed,
five consecutive connection failures sleep exactly 10, 20, 30, 40 and 50
seconds (never reaching the 60-second cap), a sixth failure gives up instead
of sleeping, and the cap value 60 would first be produced at attempt 6. -/
theorem c4_backoff_delay_sequence :
    websocketHandler 0 (List.replicate 5 .connectFailed) =
      [.attempt, .sleep 10, .attempt, .sleep 20, .attempt, .sleep 30,
       .attempt, .sleep 40, .attempt, .sleep 50] ∧
    websocketHandler 0 (List.replicate 6 .connectFailed) =
      [.attempt, .sleep 10, .attempt, .sleep 20, .attempt, .sleep 30,
       .attempt, .sleep 40, .attempt, .sleep 50, .attempt, .gaveUp] ∧
    backoffDelay 6 = 60 :=
  ⟨rfl, rfl, rfl⟩

/-- C5: the give-up exit is terminal for the retry loop: in every trace of
`websocketHandler`, nothing follows a `gaveUp` event — no further connection
attempt and no further frame dispatch occur within the coordinator lifetime,
so only the independent fallback poller (`asyncUpdateData`) can update the
snapshot from then on. -/
theorem c5_given_up_is_terminal (retryCount : Nat)
    (outcomes : List IterOutcome) (pre post : List WsEvent)
    (h : websocketHandler retryCount outcomes = pre ++ .gaveUp :: post) :
    post = [] :=
  gaveUpTerminal_spec pre post
    (h ▸ websocketHandler_gaveUpTerminal retryCount outcomes)

/-- C5 witness: the theorem applied to the concrete trace of six consecutive
connection failures, whose `gaveUp` event is final. -/
theorem c5_witness :
    websocketHandler 0 (List.replicate 6 .connectFailed) =
      [.attempt, .sleep 10, .attempt, .sleep 20, .attempt, .sleep 30,
       .attempt, .sleep 40, .attempt, .sleep 50, .attempt] ++
        .gaveUp :: [] ∧
    ([] : List WsEvent) = [] :=
  ⟨rfl,
   c5_given_up_is_terminal 0 (List.replicate 6 .connectFailed)
    [.attempt, .sleep 10, .attempt, .sleep 20, .attempt, .sleep 30,
     .attempt, .sleep 40, .attempt, .sleep 50, .attempt] [] rfl⟩

/-- C6, counterexample: when the `closed` probe of the transport itself raises,
the code swallows the exception and sets `is_closed = False`, so the
transport is treated as open and the write IS attempted — refuting the
claim that a raising check is treated as not connected with no write
attempted.  No exception escapes. -/
theorem c6_counterexample :
    (sendWebsocketCommand
        ⟨some ⟨.callableRaises, .ok⟩, true, none⟩).wrote = true ∧
    (sendWebsocketCommand
        ⟨some ⟨.callableRaises, .ok⟩, true, none⟩).raised = false :=
  ⟨rfl, rfl⟩

/-- C6 (amended): every outbound send first probes the `closed`
attribute; no call of `_send_websocket_command` ever lets an exception
escape; if the probe itself raises, the transport is treated as OPEN and the
write is attempted; if the probe reports closed, the send is a silent no-op
leaving the state unchanged; and a transport-error during the write is
caught, logged as a warning and degrades the connection. -/
theorem c6_send_safety (st : CoordState) :
    (sendWebsocketCommand st).raised = false ∧
    (∀ t, st.websocket = some t → t.closedAttr = .callableRaises →
        (sendWebsocketCommand st).wrote = true) ∧
    (∀ t, st.websocket = some t → evalClosed t.closedAttr = true →
        (sendWebsocketCommand st).wrote = false ∧
        (sendWebsocketCommand st).after = st) ∧
    (∀ t, st.websocket = some t → evalClosed t.closedAttr = false →
        t.sendResult = .transportErr →
        (sendWebsocketCommand st).warned = true ∧
        (sendWebsocketCommand st).after.websocketConnected = false) := by
  refine ⟨?_, ?_, ?_, ?_⟩
  · cases hws : st.websocket with
    | none => simp [sendWebsocketCommand, hws]
    | some t =>
        cases hca : evalClosed t.closedAttr with
        | true => simp [sendWebsocketCommand, hws, hca]
        | false =>
            cases hsr : t.sendResult <;>
              simp [sendWebsocketCommand, hws, hca, hsr]
  · intro t ht hraises
    have hopen : evalClosed t.closedAttr = false := by rw [hraises]; rfl
    cases hsr : t.sendResult <;>
      simp [sendWebsocketCommand, ht, hopen, hsr]
  · intro t ht hclosed
    constructor <;> simp [sendWebsocketCommand, ht, hclosed]
  · intro t ht hopen hfail
    constructor <;> simp [sendWebsocketCommand, ht, hopen, hfail]

/-- C6 witness: the amended theorem applied at a concrete state whose
`closed` probe raises: nothing escapes and the write is attempted. -/
theorem c6_witness :
    (sendWebsocketCommand
        ⟨some ⟨.callableRaises, .transportErr⟩, true, none⟩).raised
      = false ∧
    (sendWebsocketCommand
        ⟨some ⟨.callableRaises, .transportErr⟩, true, none⟩).wrote = true :=
  have h := c6_send_safety ⟨some ⟨.callableRaises, .transportErr⟩, true, none⟩
  ⟨h.1, h.2.1 ⟨.callableRaises, .transportErr⟩ rfl rfl⟩

/-- C7: on a fallback-poll tick, failure (non-200, transport error or
timeout) of either required fetch makes the tick raise a recoverable
`UpdateFailed` (so the previous snapshot stays current), while failure of
the best-effort screens fetch is swallowed: the tick still succeeds and the
returned snapshot carries the previously stored `screens` value. -/
theorem c7_poller_failure_handling (selfData : Option Dict)
    (sf stf scf : FetchResult) :
    (FetchResult.isOk200 sf = false ∨ FetchResult.isOk200 stf = false →
        ∃ e, asyncUpdateData selfData sf stf scf = .error e) ∧
    (∀ snap, asyncUpdateData selfData sf stf scf = .ok snap →
        FetchResult.isOk200 scf = false →
        Dict.get? snap "screens"
          = some (Dict.getD (pollExisting selfData) "screens" (.list []))) := by
  constructor
  · intro hfail
    cases sf with
    | clientError => exact ⟨_, rfl⟩
    | timeout => exact ⟨_, rfl⟩
    | resp code body =>
        by_cases hcode : code = 200
        · subst hcode
          have hst : FetchResult.isOk200 stf = false := by
            rcases hfail with h | h
            · simp [FetchResult.isOk200] at h
            · exact h
          cases stf with
          | clientError => exact ⟨_, rfl⟩
          | timeout => exact ⟨_, rfl⟩
          | resp code₂ body₂ =>
              have hne : ¬ code₂ = 200 := by
                intro e
                subst e
                simp [FetchResult.isOk200] at hst
              exact ⟨"Error communicating with device",
                by simp [asyncUpdateData, hne]⟩
        · exact ⟨"Error communicating with device",
            by simp [asyncUpdateData, hcode]⟩
  · intro snap hok hscf
    cases sf with
    | clientError => exact Except.noConfusion hok
    | timeout => exact Except.noConfusion hok
    | resp code body =>
        simp only [asyncUpdateData] at hok
        split at hok
        · split at hok
          · exact Except.noConfusion hok
          · exact Except.noConfusion hok
          · split at hok
            · injection hok with hok
              subst hok
              show some (screensFromFetch selfData scf) = _
              rw [screensFromFetch_of_failure selfData scf hscf]
            · exact Except.noConfusion hok
        · exact Except.noConfusion hok

/-- C7 witness: the theorem applied at concrete fetches: a failed status
fetch fails the tick; and with both required fetches succeeding but the
screens fetch timing out, the previous `screens` value is returned. -/
theorem c7_witness :
    (∃ e, asyncUpdateData
        (some [("sensors", Value.dict []), ("status", Value.dict []),
               ("screens", Value.list [Value.str "temp"])])
        (.resp 200 (.dict [])) .clientError .timeout = .error e) ∧
    Dict.get? [("sensors", Value.dict [("t", Value.num 1)]),
               ("status", Value.dict [("u", Value.num 2)]),
               ("screens", Value.list [Value.str "temp"])] "screens"
      = some (Value.list [Value.str "temp"]) :=
  ⟨(c7_poller_failure_handling
      (some [("sensors", Value.dict []), ("status", Value.dict []),
             ("screens", Value.list [Value.str "temp"])])
      (.resp 200 (.dict [])) .clientError .timeout).1 (Or.inr rfl),
   (c7_poller_failure_handling
      (some [("sensors", Value.dict []), ("status", Value.dict []),
             ("screens", Value.list [Value.str "temp"])])
      (.resp 200 (.dict [("t", .num 1)])) (.resp 200 (.dict [("u", .num 2)]))
      .timeout).2
     [("sensors", Value.dict [("t", Value.num 1)]),
      ("status", Value.dict [("u", Value.num 2)]),
      ("screens", Value.list [Value.str "temp"])] rfl rfl⟩

/-- C8: a `send_device_command` call while the connection is not reported
connected returns `False` immediately, attempts no transport write, and
leaves the whole coordinator state — snapshot included — unchanged. -/
theorem c8_send_requires_connection (st : CoordState)
    (h : st.websocketConnected = false) :
    (sendDeviceCommand st).1 = false ∧
    (sendDeviceCommand st).2.wrote = false ∧
    (sendDeviceCommand st).2.after = st := by
  unfold sendDeviceCommand
  rw [h]
  exact ⟨rfl, rfl, rfl⟩

/-- C8 witness: the theorem applied at a concrete disconnected state. -/
theorem c8_witness :
    (sendDeviceCommand
        ⟨some ⟨.missing, .ok⟩, false,
         some [("sensors", Value.dict [])]⟩).1 = false ∧
    (sendDeviceCommand
        ⟨some ⟨.missing, .ok⟩, false,
         some [("sensors", Value.dict [])]⟩).2.wrote = false ∧
    (sendDeviceCommand
        ⟨some ⟨.missing, .ok⟩, false,
         some [("sensors", Value.dict [])]⟩).2.after
      = ⟨some ⟨.missing, .ok⟩, false, some [("sensors", Value.dict [])]⟩ :=
  c8_send_requires_connection
    ⟨some ⟨.missing, .ok⟩, false, some [("sensors", Value.dict [])]⟩ rfl

/-- C9: every inbound frame whose `type` is `"ping"` produces exactly one
outbound echo frame `{"type": "pong", "timestamp": t}` carrying the inbound
timestamp of the inbound frame, and publishes no snapshot (the stored data is not
mutated). -/
theorem c9_ping_pong (selfData : Option Dict) (data : Dict)
    (h : Dict.getPy data "type" = .str "ping") :
    handleWebsocketMessage selfData data =
      .ok none [pongFrame (Dict.getPy data "timestamp")] := by
  rw [dispatch_ping selfData data h]
  rfl

/-- C9 witness: the theorem applied to a concrete ping frame. -/
theorem c9_witness :
    handleWebsocketMessage none
      [("type", Value.str "ping"), ("timestamp", Value.num 42)] =
      .ok none [[("type", Value.str "pong"), ("timestamp", Value.num 42)]] :=
  c9_ping_pong none [("type", .str "ping"), ("timestamp", .num 42)] rfl

/-- C10: every snapshot published by the own update paths of the coordinator —
any websocket message that publishes, and any successful fallback-poll
tick — is a mapping with exactly the keys `sensors`, `status`, `screens`,
in that order; in particular no published snapshot ever contains an `ota`
section. -/
theorem c10_snapshot_shape :
    (∀ selfData data snap sent,
        handleWebsocketMessage selfData data = .ok (some snap) sent →
        Dict.keys snap = ["sensors", "status", "screens"] ∧
        Dict.contains snap "ota" = false) ∧
    (∀ selfData sf stf scf snap,
        asyncUpdateData selfData sf stf scf = .ok snap →
        Dict.keys snap = ["sensors", "status", "screens"] ∧
        Dict.contains snap "ota" = false) := by
  have hno : ∀ snap : Dict,
      Dict.keys snap = ["sensors", "status", "screens"] →
      Dict.contains snap "ota" = false := by
    intro snap hk
    cases hb : Dict.contains snap "ota" with
    | false => rfl
    | true =>
        exfalso
        have hm := (Dict.contains_iff_mem_keys snap "ota").mp hb
        rw [hk] at hm
        simp at hm
  constructor
  · intro sd data snap sent h
    have hk := keys_handleWebsocketMessage sd data snap sent h
    exact ⟨hk, hno snap hk⟩
  · intro sd sf stf scf snap h
    have hk := keys_asyncUpdateData sd sf stf scf snap h
    exact ⟨hk, hno snap hk⟩

/-- C10 witness: the theorem applied to the snapshot published for a
concrete `status_update` push with no prior data. -/
theorem c10_witness :
    Dict.keys [("sensors", Value.dict []),
        ("status", Value.dict [("brightness", Value.num 7),
                               ("last_status_update", Value.num 100)]),
        ("screens", Value.list [])] = ["sensors", "status", "screens"] ∧
    Dict.contains [("sensors", Value.dict []),
        ("status", Value.dict [("brightness", Value.num 7),
                               ("last_status_update", Value.num 100)]),
        ("screens", Value.list [])] "ota" = false :=
  c10_snapshot_shape.1 none
    [("type", .str "status_update"), ("data", .dict [("brightness", .num 7)]),
     ("timestamp", .num 100)]
    [("sensors", .dict []),
     ("status", .dict [("brightness", .num 7),
                       ("last_status_update", .num 100)]),
     ("screens", .list [])]
    [[("command", .str "get_sensors")]] rfl

end HomeBrainz
